import Mathlib

/-
Verification of the charm-glusterfs topology planner and rollout coordinator.

Shallow embedding of:
  src/lib/gluster/peer.py   (State, Peer, State.from_str)
  src/lib/gluster/lib.py    (brick_and_server_product, find_new_peers,
                             get_brick_list, peers_are_ready, wait_for_peers)
  src/lib/gluster/volume.py (Brick, Volume)
  src/reactive/upgrade.py   (gluster_key_set, wait_on_previous_node,
                             roll_cluster)

Conventions: Python dicts are embedded as insertion-ordered lists of entries;
UUIDs are modelled as natural numbers (only equality is used); wall-clock
timestamps are modelled as integers (only ordering and subtraction are used);
functions that can raise are embedded with explicit error outcomes; loops
without a structural bound take an explicit fuel argument, and exhausting the
fuel models divergence of the source loop.
-/

/-- The 14 peer states of peer.py:26-41, in declaration order. -/
inductive State where
  | Connected
  | Disconnected
  | Unknown
  | EstablishingConnection
  | ProbeSentToPeer
  | ProbeReceivedFromPeer
  | PeerInCluster
  | AcceptedPeerRequest
  | SentAndReceivedPeerRequest
  | PeerRejected
  | PeerDetachInProgress
  | ConnectedToPeer
  | PeerIsConnectedAndAccepted
  | InvalidState
deriving DecidableEq, Repr

/-- The string value attached to each enum variant (peer.py:27-40). -/
def State.value : State → String
  | .Connected => "connected"
  | .Disconnected => "disconnected"
  | .Unknown => ""
  | .EstablishingConnection => "establishing connection"
  | .ProbeSentToPeer => "probe sent to peer"
  | .ProbeReceivedFromPeer => "probe received from peer"
  | .PeerInCluster => "peer in cluster"
  | .AcceptedPeerRequest => "accepted peer in cluster"
  | .SentAndReceivedPeerRequest => "sent and received peer request"
  | .PeerRejected => "peer rejected"
  | .PeerDetachInProgress => "peer detach in progress"
  | .ConnectedToPeer => "connected to peer"
  | .PeerIsConnectedAndAccepted => "peer is connected and accepted"
  | .InvalidState => "invalid state"

/-- Iteration order of `for state in State` (Python enum iteration follows
declaration order). -/
def stateOrder : List State :=
  [.Connected, .Disconnected, .Unknown, .EstablishingConnection,
   .ProbeSentToPeer, .ProbeReceivedFromPeer, .PeerInCluster,
   .AcceptedPeerRequest, .SentAndReceivedPeerRequest, .PeerRejected,
   .PeerDetachInProgress, .ConnectedToPeer, .PeerIsConnectedAndAccepted,
   .InvalidState]

/-- Python str.lower(), modelled per character (all strings the source
compares are ASCII). -/
def pyLower (s : String) : String := String.mk (s.data.map Char.toLower)

/-- peer.py:45-62.  `if string:` is false exactly for the empty string, so an
empty input skips the scan and raises; otherwise the first declaration-order
variant whose lowered value equals the lowered input is returned, and a
missing match raises ValueError. -/
def State.from_str (s : String) : Except String State :=
  if s = "" then
    Except.error ("Unable to find State for string: " ++ s)
  else
    match stateOrder.find? (fun st => pyLower st.value == pyLower s) with
    | some st => Except.ok st
    | none => Except.error ("Unable to find State for string: " ++ s)

/-- peer.py:99-113.  uuid is optional (the planner constructs peers with
uuid=None); status is optional for the same reason. -/
structure Peer where
  uuid : Option Nat
  hostname : String
  status : Option State
deriving DecidableEq, Repr

/-- volume.py:644-674. -/
structure Brick where
  brick_uuid : Option Nat
  peer : Peer
  path : String
  is_arbiter : Bool
deriving DecidableEq, Repr

/-- volume.py:899-945.  Only the fields read by the embedded functions are
carried; the remaining source fields (type, counts, transport, options,
status, id) are never accessed by the code under verification. -/
structure Volume where
  name : String
  bricks : List Brick
deriving DecidableEq, Repr

/-- lib.py:49-58. -/
inductive Status where
  | Created
  | WaitForMorePeers
  | InvalidConfig
  | FailedToCreate
  | FailedToStart
  | Expanded
deriving DecidableEq, Repr

/-- One entry of the peer map fed to the planner: dict key, address, and the
ordered device-path queue (lib.py:61-86 docstring).  The Python dict preserves
insertion order, so the map is embedded as an ordered list. -/
structure PeerEntry where
  name : String
  address : String
  bricks : List String
deriving DecidableEq, Repr

/-- lib.py:95-101: the brick built from a peer entry's first queued device
(`bricks[0]`); peers are constructed with uuid=None and status=None. -/
def headBrick (e : PeerEntry) : Brick :=
  { brick_uuid := none
    peer := { uuid := none, hostname := e.address, status := none }
    path := e.bricks.headD ""
    is_arbiter := false }

/-- lib.py:102: `del bricks[0]`. -/
def dropFirstBrick (e : PeerEntry) : PeerEntry :=
  { e with bricks := e.bricks.tail }

/-- lib.py:87-104.  The while loop runs one full round over the peers
(popping each entry's first device) as long as every entry still has a
device queued.  The fuel argument bounds the number of rounds; `none` means
the loop would run longer than the fuel allows.  (On an empty peer map the
source loop never terminates: the `all` guard is vacuously true and the body
does nothing; with fuel this surfaces as `none` for every fuel value.) -/
def brick_and_server_product : Nat → List PeerEntry → Option (List Brick)
  | 0, peers =>
    if peers.all (fun p => !p.bricks.isEmpty) then none else some []
  | fuel + 1, peers =>
    if peers.all (fun p => !p.bricks.isEmpty) then
      (brick_and_server_product fuel (peers.map dropFirstBrick)).map
        (fun rest => peers.map headBrick ++ rest)
    else some []

/-- Minimum device-queue length over a peer map (used to state how many
rounds the product loop runs). -/
def minBricks : List PeerEntry → Nat
  | [] => 0
  | [p] => p.bricks.length
  | p :: q :: rest => min p.bricks.length (minBricks (q :: rest))

/-- The brick that round `r` of the product emits for entry `e`: the entry's
r-th device path (its first remaining one at that round). -/
def brickAt (r : Nat) (e : PeerEntry) : Brick :=
  { brick_uuid := none
    peer := { uuid := none, hostname := e.address, status := none }
    path := e.bricks.getD r ""
    is_arbiter := false }

/-- Round-robin characterisation of the product's output: `minBricks` full
rounds, each visiting the peers in their given order. -/
def rrProduct (ps : List PeerEntry) : List Brick :=
  (List.range (minBricks ps)).flatMap (fun r => ps.map (brickAt r))

/-- lib.py:189-208: keep exactly the entries whose address differs from the
hostname of every peer already owning a brick in the volume (the Python dict
comprehension preserves iteration order). -/
def find_new_peers (peers : List PeerEntry) (volume_info : Volume) :
    List PeerEntry :=
  peers.filter
    (fun e => !(volume_info.bricks.any (fun b => b.peer.hostname == e.address)))

/-- lib.py:265-339.  `replicas` stands for `int(config("replication_level"))`
(with the source's default of 3 on a parse failure); `fuel` is threaded to
the product loop.  Note lib.py:333: in the existing-volume surplus branch the
source deep-copies `peers` - the full map - rather than `new_peers`, and then
truncates that copy, so the differential filter computed two lines earlier is
discarded there. -/
def get_brick_list (replicas fuel : Nat) (peers : List PeerEntry)
    (volume : Option Volume) : Option (Except Status (List Brick)) :=
  match volume with
  | none =>
    if peers.length < replicas then
      some (Except.error Status.WaitForMorePeers)
    else if peers.length = replicas then
      (brick_and_server_product fuel peers).map Except.ok
    else
      let count := peers.length - peers.length % replicas
      (brick_and_server_product fuel (peers.take count)).map Except.ok
  | some vol =>
    let new_peers := find_new_peers peers vol
    if new_peers.length < replicas then
      some (Except.error Status.WaitForMorePeers)
    else if new_peers.length = replicas then
      (brick_and_server_product fuel new_peers).map Except.ok
    else
      let count := new_peers.length - new_peers.length % replicas
      (brick_and_server_product fuel (peers.take count)).map Except.ok

/-- lib.py:475-483. -/
def peers_are_ready (peer_list : List Peer) : Bool :=
  peer_list.all (fun p => p.status == some State.Connected)

/-- lib.py:497-503 loop body.  `polls k` is the peer list returned by the
k-th `peer_status()` call; the remaining-iterations argument starts at 600
and the Err fires when the source counter first exceeds 600. -/
def wfpGo (polls : Nat → List Peer) : Nat → Nat → Except String Unit
  | k, 0 =>
    if peers_are_ready (polls k) then Except.ok ()
    else Except.error "Gluster peers failed to connect after 10 minutes"
  | k, fuel + 1 =>
    if peers_are_ready (polls k) then Except.ok ()
    else wfpGo polls (k + 1) fuel

/-- lib.py:486-503. -/
def wait_for_peers (polls : Nat → List Peer) : Except String Unit :=
  wfpGo polls 0 600

/-- The /mnt/glusterfs/.upgrade marker namespace: whether the directory
exists, and the marker files it holds (key, timestamp).  Timestamps are
modelled as integers since the source only stores, subtracts, and compares
them. -/
structure UpgradeDir where
  dirExists : Bool
  files : List (String × Int)
deriving DecidableEq, Repr

/-- Lookup of a marker file's stored timestamp. -/
def UpgradeDir.get (fs : UpgradeDir) (key : String) : Option Int :=
  (fs.files.find? (fun kv => kv.1 == key)).map (fun kv => kv.2)

/-- Outcome of a Python call: returned Ok(...), returned Err(...), or let an
exception escape. -/
inductive PyOutcome (α : Type) where
  | ok (a : α)
  | err (e : String)
  | raised (e : String)
deriving DecidableEq, Repr

/-- os.makedirs(p): raises FileExistsError when the directory already
exists, otherwise creates it. -/
def os_makedirs (fs : UpgradeDir) : Except String UpgradeDir :=
  if fs.dirExists then Except.error "FileExistsError"
  else Except.ok { fs with dirExists := true }

/-- open(path-in-dir, "w") followed by a write: fails with an IOError when
the parent directory is missing; otherwise creates or truncates the file,
replacing any previous content (mode "w" overwrites). -/
def openMarkerWrite (fs : UpgradeDir) (key : String) (timestamp : Int) :
    Except String UpgradeDir :=
  if fs.dirExists then
    Except.ok
      { fs with
        files := (key, timestamp) :: fs.files.filter (fun kv => kv.1 != key) }
  else Except.error "FileNotFoundError"

/-- upgrade.py:188-205.  The source guard is `if os.path.exists(p):
os.makedirs(p)` (upgrade.py:196-197): makedirs is attempted exactly when the
directory already exists, and that call sits outside the try block, so its
FileExistsError escapes uncaught; when the directory is absent the
`open(..., "w")` inside the try fails with an IOError that is caught and
returned as Err(e.strerror). -/
def gluster_key_set (fs : UpgradeDir) (key : String) (timestamp : Int) :
    PyOutcome Unit × UpgradeDir :=
  let afterGuard : PyOutcome UpgradeDir :=
    if fs.dirExists then
      match os_makedirs fs with
      | Except.error e => PyOutcome.raised e
      | Except.ok fs1 => PyOutcome.ok fs1
    else PyOutcome.ok fs
  match afterGuard with
  | PyOutcome.raised e => (PyOutcome.raised e, fs)
  | PyOutcome.err e => (PyOutcome.err e, fs)
  | PyOutcome.ok fs1 =>
    match openMarkerWrite fs1 key timestamp with
    | Except.ok fs2 => (PyOutcome.ok (), fs2)
    | Except.error e => (PyOutcome.err e, fs1)

/-- What one iteration of the wait_on_previous_node loop observes:
the current wall clock, the predecessor's start-marker timestamp (absent or
present), the random seed consumed by `random.randrange(5, 30)`, and the
value the done-marker re-poll after the sleep would return. -/
structure WaitObs where
  now : Int
  startTime : Option Int
  jitterSeed : Nat
  doneAfterSleep : Bool

/-- random.randrange(lo, hi): an arbitrary draw, always in [lo, hi). -/
def randrange (lo hi seed : Nat) : Nat := lo + seed % (hi - lo)

/-- How wait_on_previous_node can come back: an explicit `return Ok(())`
(dead predecessor or no start marker), the implicit Python None when the
while condition turns false (predecessor finished), or observations
exhausted while the loop is still running. -/
inductive WaitOutcome where
  | okReturn
  | fellThrough
  | stillWaiting
deriving DecidableEq, Repr

/-- upgrade.py:224-258.  The boolean argument is the current value of
`previous_node_finished`; the result pairs the outcome with the list of
sleep durations performed.  Each iteration: if the start marker is absent,
return Ok immediately (upgrade.py:256-258); if `now - 600 > start`, return
Ok immediately (upgrade.py:238-247); otherwise sleep `randrange 5 30` and
re-poll the done marker (upgrade.py:248-255). -/
def waitLoop : Bool → List WaitObs → WaitOutcome × List Nat
  | true, _ => (WaitOutcome.fellThrough, [])
  | false, [] => (WaitOutcome.stillWaiting, [])
  | false, o :: rest =>
    match o.startTime with
    | none => (WaitOutcome.okReturn, [])
    | some s =>
      if o.now - 600 > s then (WaitOutcome.okReturn, [])
      else
        let w := randrange 5 30 o.jitterSeed
        let next := waitLoop o.doneAfterSleep rest
        (next.1, w :: next.2)

/-- upgrade.py:213-258: the initial done-marker poll (upgrade.py:221-222)
seeds the loop flag. -/
def wait_on_previous_node (initialDone : Bool) (obs : List WaitObs) :
    WaitOutcome × List Nat :=
  waitLoop initialDone obs

/-- The Python runtime values roll_cluster manipulates.  Attribute lookup on
them is dynamic, so it is embedded explicitly (pyGetAttr below). -/
inductive PyVal where
  | pyList (xs : List PyVal)
  | pyVol (v : Volume)
  | pyBrick (b : Brick)

/-- Python attribute lookup for the values above.  A plain list exposes no
data attributes, so any lookup on it raises AttributeError; a Volume exposes
the fields the embedded code could read (only `bricks` is ever reached by
roll_cluster's attribute chain before it dies). -/
def pyGetAttr : PyVal → String → Except String PyVal
  | PyVal.pyList _, attr =>
    Except.error ("AttributeError: list object has no attribute " ++ attr)
  | PyVal.pyVol v, attr =>
    if attr = "bricks" then Except.ok (PyVal.pyList (v.bricks.map PyVal.pyBrick))
    else Except.error ("AttributeError: Volume object has no attribute " ++ attr)
  | PyVal.pyBrick _, attr =>
    Except.error ("AttributeError: Brick attribute not reached: " ++ attr)

/-- upgrade.py:85-87.  `volume.volume_info(name)` returns a plain
`List[Volume]` (volume.py:963-1006), and roll_cluster immediately evaluates
`volume_bricks.value.bricks.peers` on it.  The subsequent sort, position
lookup, and lock_and_roll / wait_on_previous_node dispatch (upgrade.py:
91-108) are not modelled because control can never reach them: the first
attribute access already raises. -/
def roll_cluster_fetch_peer_list (vols : List Volume) : Except String PyVal := do
  let volume_bricks := PyVal.pyList (vols.map PyVal.pyVol)
  let v ← pyGetAttr volume_bricks "value"
  let b ← pyGetAttr v "bricks"
  pyGetAttr b "peers"

/-! Theorems -/

lemma waitLoop_sleep_bounds (seed : Nat) :
    5 ≤ randrange 5 30 seed ∧ randrange 5 30 seed < 30 := by
  unfold randrange
  have : seed % 25 < 25 := Nat.mod_lt _ (by omega)
  omega

/-- C5: peers_are_ready is true iff every peer's status is exactly
Connected; a list containing a PeerInCluster peer is never ready. -/
theorem peers_are_ready_iff_connected (l : List Peer) :
    (peers_are_ready l = true ↔ ∀ p ∈ l, p.status = some State.Connected) ∧
    (∀ p ∈ l, p.status = some State.PeerInCluster →
      peers_are_ready l = false) := by
  constructor
  · simp [peers_are_ready, List.all_eq_true]
  · intro p hp hst
    have : ¬(peers_are_ready l = true) := by
      simp only [peers_are_ready, List.all_eq_true]
      intro h
      have := h p hp
      simp [hst] at this
    simpa using this

/-- Witness for C5: one PeerInCluster among Connected peers is not ready. -/
theorem peers_are_ready_witness :
    peers_are_ready
      [{ uuid := none, hostname := "a", status := some State.PeerInCluster },
       { uuid := none, hostname := "b", status := some State.Connected }] =
      false :=
  (peers_are_ready_iff_connected _).2
    { uuid := none, hostname := "a", status := some State.PeerInCluster }
    (by simp) rfl

/-- C10: gluster_key_set attempts makedirs exactly when the marker directory
already exists (and that raises FileExistsError); when the directory is
absent the write fails with Err and the store is left untouched - no marker
is ever created. -/
theorem gluster_key_set_guard_inverted (fs : UpgradeDir) (key : String)
    (ts : Int) :
    (fs.dirExists = false →
      gluster_key_set fs key ts = (PyOutcome.err "FileNotFoundError", fs)) ∧
    (fs.dirExists = true →
      gluster_key_set fs key ts = (PyOutcome.raised "FileExistsError", fs)) := by
  constructor <;> intro h <;>
    simp [gluster_key_set, os_makedirs, openMarkerWrite, h]

/-- Witness for C10: with the directory absent and an empty store, the write
returns Err and creates nothing. -/
theorem gluster_key_set_guard_inverted_witness :
    gluster_key_set { dirExists := false, files := [] } "k" 1 =
      (PyOutcome.err "FileNotFoundError", { dirExists := false, files := [] }) :=
  (gluster_key_set_guard_inverted { dirExists := false, files := [] } "k" 1).1
    rfl

/-- C3 failing input: two successive gluster_key_set calls for the same key
never leave the first timestamp in the store.  Starting from an absent
marker directory both calls return Err and nothing is stored; with the
directory present the very first call raises FileExistsError out of
makedirs. -/
theorem gluster_key_set_twice_failing_input :
    (gluster_key_set { dirExists := false, files := [] } "k" 1).1 =
      PyOutcome.err "FileNotFoundError" ∧
    ((gluster_key_set
        ((gluster_key_set { dirExists := false, files := [] } "k" 1).2)
        "k" 2).2).get "k" = none ∧
    ((gluster_key_set
        ((gluster_key_set { dirExists := false, files := [] } "k" 1).2)
        "k" 2).2).get "k" ≠ some 1 ∧
    (gluster_key_set { dirExists := true, files := [] } "k" 1).1 =
      PyOutcome.raised "FileExistsError" := by
  decide

/-- C7 failing input: roll_cluster's peer-list fetch raises AttributeError
on every input, because volume_info returns a plain list and the code reads
`.value` from it; the UUID sort and the index-0 fast path are dead code. -/
theorem roll_cluster_fetch_raises (vols : List Volume) :
    roll_cluster_fetch_peer_list vols =
      Except.error "AttributeError: list object has no attribute value" := rfl

/-- C6: with the predecessor's done marker absent, one loop iteration of
wait_on_previous_node returns Ok immediately (no sleep) when the start
marker is absent, returns Ok immediately when now - start exceeds 600, and
otherwise sleeps a randrange(5, 30) interval - always in [5, 30) - and
continues with the re-polled done marker. -/
theorem wait_on_previous_node_decisions (o : WaitObs) (rest : List WaitObs) :
    (o.startTime = none →
      wait_on_previous_node false (o :: rest) = (WaitOutcome.okReturn, [])) ∧
    (∀ s, o.startTime = some s → o.now - s > 600 →
      wait_on_previous_node false (o :: rest) = (WaitOutcome.okReturn, [])) ∧
    (∀ s, o.startTime = some s → o.now - s ≤ 600 →
      wait_on_previous_node false (o :: rest) =
        ((waitLoop o.doneAfterSleep rest).1,
         randrange 5 30 o.jitterSeed :: (waitLoop o.doneAfterSleep rest).2) ∧
      5 ≤ randrange 5 30 o.jitterSeed ∧ randrange 5 30 o.jitterSeed < 30) := by
  refine ⟨?_, ?_, ?_⟩
  · intro h
    simp [wait_on_previous_node, waitLoop, h]
  · intro s h hgt
    have hcond : o.now - 600 > s := by omega
    simp [wait_on_previous_node, waitLoop, h, hcond]
  · intro s h hle
    have hcond : ¬(o.now - 600 > s) := by omega
    refine ⟨?_, waitLoop_sleep_bounds o.jitterSeed⟩
    simp [wait_on_previous_node, waitLoop, h, hcond]

/-- Witness for C6: a live predecessor (age 100 of 600) causes a sleep of
the drawn jitter and a re-poll that sees the refreshed done marker. -/
theorem wait_on_previous_node_decisions_witness :
    wait_on_previous_node false
      [{ now := 700, startTime := some 600, jitterSeed := 0,
         doneAfterSleep := true }] =
      (WaitOutcome.fellThrough, [5]) :=
  ((wait_on_previous_node_decisions
      { now := 700, startTime := some 600, jitterSeed := 0,
        doneAfterSleep := true } []).2.2 600 rfl (by decide)).1

lemma wfpGo_err (polls : Nat → List Peer) :
    ∀ fuel k0,
      (∀ i, i ≤ fuel → peers_are_ready (polls (k0 + i)) = false) →
      wfpGo polls k0 fuel =
        Except.error "Gluster peers failed to connect after 10 minutes" := by
  intro fuel
  induction fuel with
  | zero =>
    intro k0 h
    have h0 := h 0 (by omega)
    simp only [Nat.add_zero] at h0
    simp [wfpGo, h0]
  | succ f ih =>
    intro k0 h
    have h0 := h 0 (by omega)
    simp only [Nat.add_zero] at h0
    simp only [wfpGo, h0, Bool.false_eq_true, if_false]
    exact ih (k0 + 1) (fun i hi => by
      have := h (i + 1) (by omega)
      rwa [show k0 + (i + 1) = k0 + 1 + i by omega] at this)

lemma wfpGo_ok (polls : Nat → List Peer) :
    ∀ fuel k0 j, j ≤ fuel →
      peers_are_ready (polls (k0 + j)) = true →
      (∀ i, i < j → peers_are_ready (polls (k0 + i)) = false) →
      wfpGo polls k0 fuel = Except.ok () := by
  intro fuel
  induction fuel with
  | zero =>
    intro k0 j hj hr _
    have hj0 : j = 0 := by omega
    subst hj0
    simp only [Nat.add_zero] at hr
    simp [wfpGo, hr]
  | succ f ih =>
    intro k0 j hj hr hmin
    cases j with
    | zero =>
      simp only [Nat.add_zero] at hr
      simp [wfpGo, hr]
    | succ j' =>
      have h0 := hmin 0 (by omega)
      simp only [Nat.add_zero] at h0
      simp only [wfpGo, h0, Bool.false_eq_true, if_false]
      exact ih (k0 + 1) j' (by omega)
        (by rwa [show k0 + 1 + j' = k0 + (j' + 1) by omega])
        (fun i hi => by
          have := hmin (i + 1) (by omega)
          rwa [show k0 + (i + 1) = k0 + 1 + i by omega] at this)

/-- C9: wait_for_peers is a bounded spin-wait: if the first 601 polls
(iterations 0 through 600 of the source counter) all fail it returns the
timeout Err, and it returns Ok at the first poll at which peers_are_ready
holds, provided that happens within the ceiling. -/
theorem wait_for_peers_bounded (polls : Nat → List Peer) :
    ((∀ k, k ≤ 600 → peers_are_ready (polls k) = false) →
      wait_for_peers polls =
        Except.error "Gluster peers failed to connect after 10 minutes") ∧
    (∀ k, k ≤ 600 → peers_are_ready (polls k) = true →
      (∀ j, j < k → peers_are_ready (polls j) = false) →
      wait_for_peers polls = Except.ok ()) := by
  constructor
  · intro h
    exact wfpGo_err polls 600 0 (fun i hi => by simpa using h i hi)
  · intro k hk hr hmin
    exact wfpGo_ok polls 600 0 k hk (by simpa using hr)
      (fun i hi => by simpa using hmin i hi)

/-- Witness for C9: an immediately-ready poll stream returns Ok. -/
theorem wait_for_peers_bounded_witness :
    wait_for_peers (fun _ => []) = Except.ok () :=
  (wait_for_peers_bounded (fun _ => [])).2 0 (by omega) rfl
    (fun j hj => absurd hj (by omega))

/-- C8 counterexample: the empty string case-insensitively equals the value
of the Unknown variant, yet State.from_str raises on it (peer.py:57
`if string:` treats the empty string as falsy and skips the scan), so the
claim does not hold for all 14 variants as stated. -/
theorem from_str_empty_counterexample :
    pyLower "" = pyLower State.Unknown.value ∧
    State.from_str "" =
      Except.error "Unable to find State for string: " := by
  exact ⟨rfl, rfl⟩

/-- C8 amended: for every nonempty input that case-insensitively equals the
value of one of the 14 variants, from_str returns that variant; the empty
string (despite matching Unknown) and every input matching no variant raise
ValueError. -/
theorem from_str_amended (s : String) :
    (s ≠ "" → ∀ st : State, pyLower s = pyLower st.value →
      State.from_str s = Except.ok st) ∧
    ((s = "" ∨ ∀ st : State, pyLower s ≠ pyLower st.value) →
      State.from_str s =
        Except.error ("Unable to find State for string: " ++ s)) := by
  constructor
  · intro hs st h
    have hfind :
        stateOrder.find? (fun c => pyLower c.value == pyLower s) = some st := by
      cases st <;> (rw [h]; decide)
    simp [State.from_str, hs, hfind]
  · intro hcase
    by_cases he : s = ""
    · simp [State.from_str, he]
    · rcases hcase with he' | hnone
      · exact absurd he' he
      · have hfind :
            stateOrder.find? (fun c => pyLower c.value == pyLower s) = none := by
          apply List.find?_eq_none.mpr
          intro c _
          simp only [beq_eq_false_iff_ne, ne_eq, Bool.not_eq_true, beq_eq_false_iff_ne]
          exact fun hcc => (hnone c) hcc.symm
        simp [State.from_str, he, hfind]

/-- Witness for C8 amended: an upper-case spelling of a variant parses to
that variant. -/
theorem from_str_amended_witness :
    State.from_str "CONNECTED" = Except.ok State.Connected :=
  (from_str_amended "CONNECTED").1 (by decide) State.Connected (by decide)

/-- C2 failing input: with replication factor 1 and three peers of which the
first (address h1) already serves a brick of the volume, find_new_peers
correctly keeps the two new entries, but the surplus branch of
get_brick_list truncates the full peer map (lib.py:333 deep-copies `peers`
instead of `new_peers`), so the emitted bricks re-include h1 and never
mention h3, instead of being the product over the new peers. -/
theorem get_brick_list_differential_failing_input :
    find_new_peers
        [{ name := "g0", address := "h1", bricks := ["/b1"] },
         { name := "g1", address := "h2", bricks := ["/b2"] },
         { name := "g2", address := "h3", bricks := ["/b3"] }]
        { name := "vol",
          bricks := [{ brick_uuid := none,
                       peer := { uuid := none, hostname := "h1",
                                 status := none },
                       path := "/b0", is_arbiter := false }] } =
      [{ name := "g1", address := "h2", bricks := ["/b2"] },
       { name := "g2", address := "h3", bricks := ["/b3"] }] ∧
    get_brick_list 1 3
        [{ name := "g0", address := "h1", bricks := ["/b1"] },
         { name := "g1", address := "h2", bricks := ["/b2"] },
         { name := "g2", address := "h3", bricks := ["/b3"] }]
        (some { name := "vol",
                bricks := [{ brick_uuid := none,
                             peer := { uuid := none, hostname := "h1",
                                       status := none },
                             path := "/b0", is_arbiter := false }] }) =
      some (Except.ok
        [{ brick_uuid := none,
           peer := { uuid := none, hostname := "h1", status := none },
           path := "/b1", is_arbiter := false },
         { brick_uuid := none,
           peer := { uuid := none, hostname := "h2", status := none },
           path := "/b2", is_arbiter := false }]) ∧
    rrProduct
        [{ name := "g1", address := "h2", bricks := ["/b2"] },
         { name := "g2", address := "h3", bricks := ["/b3"] }] ≠
      [{ brick_uuid := none,
         peer := { uuid := none, hostname := "h1", status := none },
         path := "/b1", is_arbiter := false },
       { brick_uuid := none,
         peer := { uuid := none, hostname := "h2", status := none },
         path := "/b2", is_arbiter := false }] := by
  exact ⟨rfl, rfl, by decide⟩

lemma minBricks_cons_of_ne (p : PeerEntry) {ps : List PeerEntry}
    (h : ps ≠ []) :
    minBricks (p :: ps) = min p.bricks.length (minBricks ps) := by
  cases ps with
  | nil => exact absurd rfl h
  | cons q rest => rfl

lemma minBricks_le {ps : List PeerEntry} {p : PeerEntry} (hp : p ∈ ps) :
    minBricks ps ≤ p.bricks.length := by
  induction ps with
  | nil => simp at hp
  | cons q rest ih =>
    cases rest with
    | nil =>
      simp at hp
      subst hp
      exact Nat.le_refl _
    | cons r t =>
      rw [minBricks_cons_of_ne q (by simp)]
      rcases List.mem_cons.mp hp with h | h
      · subst h; exact Nat.min_le_left _ _
      · exact Nat.le_trans (Nat.min_le_right _ _) (ih h)

lemma exists_minBricks {ps : List PeerEntry} (h : ps ≠ []) :
    ∃ p ∈ ps, p.bricks.length = minBricks ps := by
  induction ps with
  | nil => exact absurd rfl h
  | cons q rest ih =>
    cases rest with
    | nil => exact ⟨q, by simp, rfl⟩
    | cons r t =>
      rcases ih (by simp) with ⟨p, hp, hlen⟩
      rw [minBricks_cons_of_ne q (by simp)]
      rcases Nat.le_total q.bricks.length (minBricks (r :: t)) with hle | hle
      · exact ⟨q, by simp, by omega⟩
      · exact ⟨p, by simp [List.mem_cons.mp hp], by omega⟩

lemma minBricks_dropFirst (ps : List PeerEntry) :
    minBricks (ps.map dropFirstBrick) = minBricks ps - 1 := by
  induction ps with
  | nil => rfl
  | cons q rest ih =>
    cases rest with
    | nil => simp [minBricks, dropFirstBrick, List.length_tail]
    | cons r t =>
      rw [List.map_cons, minBricks_cons_of_ne _ (by simp),
          minBricks_cons_of_ne q (by simp), ih]
      have : (dropFirstBrick q).bricks.length = q.bricks.length - 1 := by
        simp [dropFirstBrick, List.length_tail]
      omega

lemma product_guard_true {ps : List PeerEntry}
    (h : ∀ p ∈ ps, 0 < p.bricks.length) :
    ps.all (fun p => !p.bricks.isEmpty) = true := by
  rw [List.all_eq_true]
  intro p hp
  have := h p hp
  simp only [Bool.not_eq_true']
  rw [List.isEmpty_eq_false]
  intro he
  rw [he] at this
  simp at this

lemma product_guard_false {ps : List PeerEntry} {p : PeerEntry}
    (hp : p ∈ ps) (h : p.bricks.length = 0) :
    ps.all (fun p => !p.bricks.isEmpty) = false := by
  rw [List.all_eq_false]
  refine ⟨p, hp, ?_⟩
  have : p.bricks = [] := List.length_eq_zero.mp h
  simp [this]

lemma brickAt_zero (e : PeerEntry) : brickAt 0 e = headBrick e := by
  unfold brickAt headBrick
  cases e.bricks <;> rfl

lemma brickAt_dropFirst (r : Nat) (e : PeerEntry) :
    brickAt r (dropFirstBrick e) = brickAt (r + 1) e := by
  unfold brickAt dropFirstBrick
  cases e.bricks <;> rfl

lemma map_brickAt_dropFirst (ps : List PeerEntry) (r : Nat) :
    (ps.map dropFirstBrick).map (brickAt r) = ps.map (brickAt (r + 1)) := by
  rw [List.map_map]
  exact List.map_congr_left (fun e _ => brickAt_dropFirst r e)

lemma rrProduct_step {ps : List PeerEntry} {n : Nat}
    (hmin : minBricks ps = n + 1) :
    rrProduct ps = ps.map headBrick ++ rrProduct (ps.map dropFirstBrick) := by
  have hmin' : minBricks (ps.map dropFirstBrick) = n := by
    rw [minBricks_dropFirst, hmin]
    omega
  unfold rrProduct
  rw [hmin, hmin', List.range_succ_eq_map, List.flatMap_cons, List.flatMap_map]
  simp only [map_brickAt_dropFirst, Nat.succ_eq_add_one]
  congr 1
  exact List.map_congr_left (fun e _ => brickAt_zero e)

lemma bsp_eq_some_rr :
    ∀ (m fuel : Nat) (ps : List PeerEntry), ps ≠ [] → minBricks ps = m →
      m < fuel →
      brick_and_server_product fuel ps = some (rrProduct ps) := by
  intro m
  induction m with
  | zero =>
    intro fuel ps hne hmin hfuel
    rcases exists_minBricks hne with ⟨p, hp, hlen⟩
    have hg := product_guard_false hp (by omega)
    cases fuel with
    | zero => omega
    | succ f =>
      simp only [brick_and_server_product, hg, Bool.false_eq_true, if_false]
      simp [rrProduct, hmin]
  | succ n ih =>
    intro fuel ps hne hmin hfuel
    have hg : ps.all (fun p => !p.bricks.isEmpty) = true := by
      apply product_guard_true
      intro p hp
      have := minBricks_le hp
      omega
    cases fuel with
    | zero => omega
    | succ f =>
      have hne' : ps.map dropFirstBrick ≠ [] := by
        simpa using hne
      have hmin' : minBricks (ps.map dropFirstBrick) = n := by
        rw [minBricks_dropFirst, hmin]
        omega
      have hrec := ih f (ps.map dropFirstBrick) hne' hmin' (by omega)
      simp only [brick_and_server_product, hg, if_true, hrec, Option.map_some']
      rw [rrProduct_step hmin]

lemma rrProduct_length (ps : List PeerEntry) :
    (rrProduct ps).length = ps.length * minBricks ps := by
  unfold rrProduct
  rw [List.length_flatMap]
  have : (List.map (List.length ∘ fun r => ps.map (brickAt r))
      (List.range (minBricks ps))) =
      List.replicate (minBricks ps) ps.length := by
    rw [show (List.length ∘ fun r => ps.map (brickAt r)) =
        Function.const Nat ps.length from funext fun r => by
          simp [Function.const]]
    rw [List.map_const, List.length_range]
  rw [this, List.sum_replicate]
  simp [Nat.mul_comm]

/-- C1: for a non-empty ordered peer map, the product loop terminates within
minBricks-many rounds and emits exactly the round-robin interleaving: round
r visits the peers in their given order and consumes each peer's r-th device
path (its first remaining one), the total count is (number of peers) times
the minimum device count, and every emitted brick comes from a device index
below that minimum - surplus devices are never emitted. -/
theorem brick_and_server_product_round_robin (ps : List PeerEntry)
    (fuel : Nat) (hne : ps ≠ []) (hfuel : minBricks ps < fuel) :
    brick_and_server_product fuel ps = some (rrProduct ps) ∧
    (rrProduct ps).length = ps.length * minBricks ps ∧
    ∀ b ∈ rrProduct ps, ∃ e ∈ ps, ∃ r < minBricks ps, b = brickAt r e := by
  refine ⟨bsp_eq_some_rr (minBricks ps) fuel ps hne rfl hfuel,
    rrProduct_length ps, ?_⟩
  intro b hb
  unfold rrProduct at hb
  rw [List.mem_flatMap] at hb
  rcases hb with ⟨r, hr, hb⟩
  rw [List.mem_range] at hr
  rw [List.mem_map] at hb
  rcases hb with ⟨e, he, rfl⟩
  exact ⟨e, he, r, hr, rfl⟩

/-- Witness for C1: two peers with two devices each yield the four bricks in
round-robin order. -/
theorem brick_and_server_product_round_robin_witness :
    brick_and_server_product 3
        [{ name := "glusterfs-0", address := "192.168.10.2",
           bricks := ["/mnt/brick1", "/mnt/brick2"] },
         { name := "glusterfs-1", address := "192.168.10.3",
           bricks := ["/mnt/brick1", "/mnt/brick2"] }] =
      some (rrProduct
        [{ name := "glusterfs-0", address := "192.168.10.2",
           bricks := ["/mnt/brick1", "/mnt/brick2"] },
         { name := "glusterfs-1", address := "192.168.10.3",
           bricks := ["/mnt/brick1", "/mnt/brick2"] }]) ∧
    (rrProduct
        [{ name := "glusterfs-0", address := "192.168.10.2",
           bricks := ["/mnt/brick1", "/mnt/brick2"] },
         { name := "glusterfs-1", address := "192.168.10.3",
           bricks := ["/mnt/brick1", "/mnt/brick2"] }]).length =
      ([{ name := "glusterfs-0", address := "192.168.10.2",
          bricks := ["/mnt/brick1", "/mnt/brick2"] },
        { name := "glusterfs-1", address := "192.168.10.3",
          bricks := ["/mnt/brick1", "/mnt/brick2"] }] :
        List PeerEntry).length *
      minBricks
        [{ name := "glusterfs-0", address := "192.168.10.2",
           bricks := ["/mnt/brick1", "/mnt/brick2"] },
         { name := "glusterfs-1", address := "192.168.10.3",
           bricks := ["/mnt/brick1", "/mnt/brick2"] }] ∧
    ∀ b ∈ rrProduct
        [{ name := "glusterfs-0", address := "192.168.10.2",
           bricks := ["/mnt/brick1", "/mnt/brick2"] },
         { name := "glusterfs-1", address := "192.168.10.3",
           bricks := ["/mnt/brick1", "/mnt/brick2"] }],
      ∃ e ∈ [{ name := "glusterfs-0", address := "192.168.10.2",
               bricks := ["/mnt/brick1", "/mnt/brick2"] },
             { name := "glusterfs-1", address := "192.168.10.3",
               bricks := ["/mnt/brick1", "/mnt/brick2"] }],
        ∃ r < minBricks
            [{ name := "glusterfs-0", address := "192.168.10.2",
               bricks := ["/mnt/brick1", "/mnt/brick2"] },
             { name := "glusterfs-1", address := "192.168.10.3",
               bricks := ["/mnt/brick1", "/mnt/brick2"] }],
          b = brickAt r e :=
  brick_and_server_product_round_robin _ 3 (by decide) (by decide)

/-- C4: with no existing volume and a positive replication factor, too few
peers yield Err(WaitForMorePeers) and no bricks; an exact match yields Ok of
the round-robin product over all peers; a surplus yields Ok of the
round-robin product over exactly the first floor(N/R)*R peer entries in
their given order, the trailing remainder being dropped. -/
theorem get_brick_list_no_volume (replicas fuel : Nat) (ps : List PeerEntry)
    (hR : 0 < replicas) (hfuel : ∀ p ∈ ps, p.bricks.length < fuel) :
    (ps.length < replicas →
      get_brick_list replicas fuel ps none =
        some (Except.error Status.WaitForMorePeers)) ∧
    (ps.length = replicas →
      get_brick_list replicas fuel ps none =
        some (Except.ok (rrProduct ps))) ∧
    (replicas < ps.length →
      get_brick_list replicas fuel ps none =
        some (Except.ok
          (rrProduct (ps.take (ps.length / replicas * replicas))))) := by
  refine ⟨?_, ?_, ?_⟩
  · intro h
    simp [get_brick_list, h]
  · intro h
    have hne : ps ≠ [] := by
      rw [← List.length_pos]
      omega
    have hbsp : brick_and_server_product fuel ps = some (rrProduct ps) := by
      rcases exists_minBricks hne with ⟨p, hp, hlen⟩
      exact bsp_eq_some_rr (minBricks ps) fuel ps hne rfl
        (by have := hfuel p hp; omega)
    simp [get_brick_list, h, hbsp]
  · intro h
    have hmod : ps.length % replicas < replicas := Nat.mod_lt _ hR
    have hdm := Nat.div_add_mod' ps.length replicas
    have hcount : ps.length - ps.length % replicas =
        ps.length / replicas * replicas := by omega
    have hkeptlen :
        (ps.take (ps.length - ps.length % replicas)).length =
          ps.length - ps.length % replicas := by
      rw [List.length_take]
      omega
    have hne : ps.take (ps.length - ps.length % replicas) ≠ [] := by
      rw [← List.length_pos, hkeptlen]
      omega
    have hbsp : brick_and_server_product fuel
        (ps.take (ps.length - ps.length % replicas)) =
        some (rrProduct (ps.take (ps.length - ps.length % replicas))) := by
      rcases exists_minBricks hne with ⟨p, hp, hlen⟩
      have hmem : p ∈ ps := List.take_subset _ _ hp
      exact bsp_eq_some_rr _ fuel _ hne rfl
        (by have := hfuel p hmem; omega)
    have hlt : ¬(ps.length < replicas) := by omega
    have heq : ¬(ps.length = replicas) := by omega
    simp only [get_brick_list, hlt, heq, if_false, hbsp, Option.map_some']
    rw [hcount]

/-- Witness for C4: two peers against replication factor 3 yield
Err(WaitForMorePeers). -/
theorem get_brick_list_no_volume_witness :
    get_brick_list 3 5
        [{ name := "g0", address := "h1", bricks := ["/b1"] },
         { name := "g1", address := "h2", bricks := ["/b1"] }] none =
      some (Except.error Status.WaitForMorePeers) :=
  (get_brick_list_no_volume 3 5
      [{ name := "g0", address := "h1", bricks := ["/b1"] },
       { name := "g1", address := "h2", bricks := ["/b1"] }]
      (by decide) (by decide)).1 (by decide)
